import Mathlib

/-!
Shallow embedding of the youauth face-recognition glue layer
(src/youauth/face_recognizer.js) and proofs about its orchestration logic.

The external face-api.js / tensorflow capabilities (face detection, the
nearest-match classifier, JPEG codecs, the 2-D canvas) are modelled as
function parameters or opaque payloads; everything the repository itself
computes (batch wiring, length checks, placeholder handling, label
filtering, serialization structure, save paths, the drawing loop and the
final method dispatch of drawFaceDetections) is embedded faithfully.

Descriptor values (the entries of a Float32Array embedding) are carried by
a type parameter `α`: the glue layer never inspects them, and JSON
round-trips preserve their values at 32-bit precision, which the
serialization claims concede.
-/

namespace YouAuth

/-- Bounding box of a detection (`detection.box` fields `_x`, `_y`,
`_width`, `_height`). -/
structure Box where
  x : Int
  y : Int
  width : Int
  height : Int
  deriving DecidableEq, Repr

/-- The `detection` part of a face-api result; the glue layer only reads
its box. -/
structure Detection where
  box : Box
  deriving DecidableEq, Repr

/-- One detection result as produced by `detectSingleFace` /
`detectAllFaces` after `.withFaceLandmarks().withFaceDescriptor()`: the
glue layer reads `result.descriptor` and `result.detection.box`. -/
structure DetectionResult (α : Type) where
  detection : Detection
  descriptor : List α
  deriving DecidableEq, Repr

/-- face-api `LabeledFaceDescriptors`: `_label` and `_descriptors`
(a list of embedding vectors). -/
structure LabeledFaceDescriptors (α : Type) where
  label : String
  descriptors : List (List α)
  deriving DecidableEq, Repr

/-- face-api `FaceMatch`: `_label` and `_distance`. -/
structure FaceMatch where
  label : String
  distance : ℚ
  deriving DecidableEq, Repr

/-- The mutable fields set by the `FaceRecognizer()` constructor.
(`this.options` only repackages `minConfidence` for the detector and is
passed opaquely to the external capability.) -/
structure FaceRecognizer where
  minConfidence : ℚ
  distanceThreshold : ℚ
  deriving DecidableEq, Repr

/-- The `FaceRecognizer()` constructor: `minConfidence = 0.8`,
`distanceThreshold = 0.63`. -/
def FaceRecognizer.new : FaceRecognizer :=
  { minConfidence := 0.8, distanceThreshold := 0.63 }

/-- `FaceRecognizer.prototype.labelDescriptors(labels, refImages)`.
`loadImage` and `detectSingleFace` stand for `this.loadImage` and the
external `faceAPI.detectSingleFace(img, this.options)...` call chain.
The result models the resolved value of the returned promise as
`Option` (JS `undefined` is `none`) together with the ordered list of
`console.error` messages recorded along the way:
length mismatch logs and returns `undefined` before any per-item work;
otherwise each (label, image) pair independently becomes either
`some (LabeledFaceDescriptors label [descriptor])` or the `undefined`
placeholder, logging one message per failed detection. -/
def labelDescriptors {ι img α : Type}
    (loadImage : ι → img)
    (detectSingleFace : img → Option (DetectionResult α))
    (labels : List String) (refImages : List ι) :
    Option (List (Option (LabeledFaceDescriptors α))) × List String :=
  if labels.length ≠ refImages.length then
    (none, ["Labels and images not aligned!"])
  else
    let items := (labels.zip refImages).map (fun p =>
      match detectSingleFace (loadImage p.2) with
      | none => ((none : Option (LabeledFaceDescriptors α)), ["No faces detected."])
      | some result =>
          (some { label := p.1, descriptors := [result.descriptor] }, ([] : List String)))
    (some (items.map Prod.fst), (items.map Prod.snd).flatten)

/-- The parsed content of the JSON text written by
`FaceRecognizer.prototype.saveDescriptors`: `JSON.stringify` turns each
`LabeledFaceDescriptors` into `{label, descriptors}` (its `toJSON`
shape), so the file parses back to an ordered list of
(label, descriptors) records. The JSON text layer itself is abstracted:
stringify/parse are mutually inverse on this structure and preserve the
numeric values at 32-bit precision. -/
def saveDescriptorsJSON {α : Type} (labeledFaceDescriptors : List (LabeledFaceDescriptors α)) :
    List (String × List (List α)) :=
  labeledFaceDescriptors.map (fun d => (d.label, d.descriptors))

/-- `FaceRecognizer.prototype.loadDescriptors(jsonString)` after
`JSON.parse`: for each record, `new Float32Array(content.descriptors[0])`
(an absent index yields an empty vector, modelled by `headD []`) is
wrapped in a singleton list and paired with the label. -/
def loadDescriptors {α : Type} (contents : List (String × List (List α))) :
    List (LabeledFaceDescriptors α) :=
  contents.map (fun content =>
    { label := content.1, descriptors := [content.2.headD []] })

/-- `FaceRecognizer.prototype.getMatchedLabels(matches)`: pushes each
`_label` that is not `"unknown"` onto an accumulator array, in order. -/
def getMatchedLabels (faceMatches : List FaceMatch) : List String :=
  faceMatches.foldl
    (fun matchedLabels m =>
      if m.label ≠ "unknown" then matchedLabels ++ [m.label] else matchedLabels)
    []

/-- `FaceRecognizer.prototype.getMatches(detectionResults,
labeledFaceDescriptors)`: builds a face matcher from the labeled
descriptors and `this.distanceThreshold`, then maps `findBestMatch` over
each result descriptor. `findBestMatch` stands for the external
`faceAPI.FaceMatcher` capability, taking the matcher construction
arguments explicitly. -/
def FaceRecognizer.getMatches {α : Type} (self : FaceRecognizer)
    (findBestMatch : List (LabeledFaceDescriptors α) → ℚ → List α → FaceMatch)
    (detectionResults : List (DetectionResult α))
    (labeledFaceDescriptors : List (LabeledFaceDescriptors α)) : List FaceMatch :=
  let faceMatcher := fun d => findBestMatch labeledFaceDescriptors self.distanceThreshold d
  detectionResults.map (fun fd => faceMatcher fd.descriptor)

/-- `path.resolve(base, fileName)` for a relative base, modelled relative
to the working directory. -/
def pathResolve (base fileName : String) : String :=
  base ++ "/" ++ fileName

/-- The path written by `FaceRecognizer.prototype.saveImageFile`:
`path.resolve('./images', fileName)` — the base directory is the literal
`./images`. -/
def saveImageFilePath (fileName : String) : String :=
  pathResolve "./images" fileName

/-- The path written by `FaceRecognizer.prototype.saveTensorJPG`:
`"images/" + fileName` — the base directory is the literal `images`. -/
def saveTensorJPGPath (fileName : String) : String :=
  "images/" ++ fileName

/-- Modelled from the spec: the spec claims image saving writes into a
configurable base directory, so the claimed path of a saved image under a
configured base directory is `baseDir/fileName`. Used only to compare the
claim with the code, which takes no base-directory input. -/
def configurableSavePath (baseDir fileName : String) : String :=
  baseDir ++ "/" ++ fileName

/-- Opaque pixel tensor: shape plus an uninterpreted payload. The glue
layer never mutates one in place. -/
structure Tensor where
  shape : List Nat
  data : List Nat
  deriving DecidableEq, Repr

/-- Canvas drawing commands issued by `drawFaceDetections`. -/
inductive DrawOp where
  | strokeText (text : String) (x y : Int)
  | strokeRect (x y w h : Int)
  deriving DecidableEq, Repr

/-- The methods defined on `FaceRecognizer.prototype` in
src/youauth/face_recognizer.js. JS method dispatch on `this` succeeds
exactly for these names. -/
def faceRecognizerPrototypeMethods : List String :=
  ["labelDescriptors", "loadDescriptors", "getMatchedLabels", "detect",
   "getMatches", "saveDescriptors", "saveImageFile", "saveTensorJPG",
   "loadImage", "drawFaceDetections"]

/-- The drawing loop of `drawFaceDetections`: for each match at index i,
read `results[i].detection.box` (a missing index is a JS TypeError) and
issue `strokeText(label, x+10, y-5)` then
`strokeRect(x, y, width, height)`. `matchToString` stands for face-api
`FaceMatch.prototype.toString`. -/
def drawOpsForMatches {α : Type} (matchToString : FaceMatch → String)
    (faceMatches : List FaceMatch) (results : List (DetectionResult α)) :
    Except String (List DrawOp) :=
  faceMatches.enum.foldl
    (fun acc p =>
      match acc with
      | .error e => .error e
      | .ok ops =>
          match results.get? p.1 with
          | none => .error "TypeError: cannot read detection of undefined"
          | some r =>
              let box := r.detection.box
              let label := matchToString p.2
              .ok (ops ++
                [DrawOp.strokeText label (box.x + 10) (box.y - 5),
                 DrawOp.strokeRect box.x box.y box.width box.height]))
    (.ok [])

/-- `FaceRecognizer.prototype.drawFaceDetections(matches, results,
tensor)`: re-encodes the input tensor onto a fresh canvas, runs the
drawing loop, takes the canvas data URL, and finally executes
`return this.loadImageData(dataURL)` — a method lookup on `this`, which
succeeds only for names in `faceRecognizerPrototypeMethods` and otherwise
throws a TypeError. The input tensor is only read. -/
def drawFaceDetections {α : Type} (matchToString : FaceMatch → String)
    (faceMatches : List FaceMatch) (results : List (DetectionResult α))
    (tensor : Tensor) : Except String (List DrawOp × Tensor) :=
  match drawOpsForMatches matchToString faceMatches results with
  | .error e => .error e
  | .ok ops =>
      if "loadImageData" ∈ faceRecognizerPrototypeMethods then
        .ok (ops, tensor)
      else
        .error "TypeError: this.loadImageData is not a function"





/-! ## Helper lemmas -/

/-- Closed form of the resolved array when the length guard passes. -/
theorem labelDescriptors_fst_of_length {ι img α : Type}
    (loadImage : ι → img) (detectSingleFace : img → Option (DetectionResult α))
    (labels : List String) (refImages : List ι)
    (h : labels.length = refImages.length) :
    (labelDescriptors loadImage detectSingleFace labels refImages).1 =
      some ((labels.zip refImages).map (fun p =>
        (detectSingleFace (loadImage p.2)).map
          (fun result => { label := p.1, descriptors := [result.descriptor] }))) := by
  simp only [labelDescriptors, h, ne_eq, not_true_eq_false, if_false]
  congr 1
  rw [List.map_map]
  apply List.map_congr_left
  intro p _
  simp only [Function.comp_apply]
  cases hd : detectSingleFace (loadImage p.2) <;> simp [hd]

/-- Closed form of the error log when the length guard passes: one
message per pair whose detection found no face. -/
theorem labelDescriptors_snd_of_length {ι img α : Type}
    (loadImage : ι → img) (detectSingleFace : img → Option (DetectionResult α))
    (labels : List String) (refImages : List ι)
    (h : labels.length = refImages.length) :
    (labelDescriptors loadImage detectSingleFace labels refImages).2 =
      ((labels.zip refImages).filter
        (fun p => (detectSingleFace (loadImage p.2)).isNone)).map
        (fun _ => "No faces detected.") := by
  simp only [labelDescriptors, h, ne_eq, not_true_eq_false, if_false]
  generalize labels.zip refImages = l
  induction l with
  | nil => rfl
  | cons p tl ih =>
      simp only [List.map_cons, List.filter_cons]
      cases hd : detectSingleFace (loadImage p.2) <;>
        simp_all [List.flatten]

/-- The accumulator-passing loop of getMatchedLabels is a filter of the
label projections. -/
theorem getMatchedLabels_foldl (faceMatches : List FaceMatch) (acc : List String) :
    faceMatches.foldl
        (fun matchedLabels m =>
          if m.label ≠ "unknown" then matchedLabels ++ [m.label] else matchedLabels)
        acc =
      acc ++ (faceMatches.map FaceMatch.label).filter (fun l => l != "unknown") := by
  induction faceMatches generalizing acc with
  | nil => simp
  | cons m tl ih =>
      simp only [List.foldl_cons]
      by_cases h : m.label = "unknown"
      · rw [if_neg (not_not_intro h), ih]
        simp [List.filter_cons, h]
      · rw [if_pos h, ih]
        simp [List.filter_cons, h]

/-! ## Claim theorems -/

/-- C2: whenever `labels.length != images.length`, labelDescriptors fails
with the validation error (logged) before any per-item work begins and
produces no output: the resolved value is `undefined` and the log holds
only the alignment message, with no per-item result or message. -/
theorem c2_length_mismatch_validation {ι img α : Type}
    (loadImage : ι → img) (detectSingleFace : img → Option (DetectionResult α))
    (labels : List String) (refImages : List ι)
    (h : labels.length ≠ refImages.length) :
    labelDescriptors loadImage detectSingleFace labels refImages =
      (none, ["Labels and images not aligned!"]) := by
  simp [labelDescriptors, h]

theorem c2_length_mismatch_validation_witness :
    (["a"] : List String).length ≠ ([] : List Nat).length ∧
      labelDescriptors (fun r : Nat => r)
          (fun _ : Nat => (none : Option (DetectionResult Nat)))
          ["a"] ([] : List Nat) =
        (none, ["Labels and images not aligned!"]) :=
  ⟨by decide, c2_length_mismatch_validation _ _ _ _ (by decide)⟩

/-- C3 counterexample: the threshold a freshly constructed FaceRecognizer
hands to the face matcher inside getMatches is 0.63, and a match carrying
the actual threshold differs from one carrying the claimed 0.6. -/
theorem c3_counterexample :
    FaceRecognizer.new.getMatches
        (fun _ t _ => { label := "probe", distance := t })
        [{ detection := { box := { x := 0, y := 0, width := 0, height := 0 } },
           descriptor := ([] : List Nat) }]
        [] =
      [{ label := "probe", distance := 0.63 }] ∧
    ({ label := "probe", distance := 0.63 } : FaceMatch) ≠
      { label := "probe", distance := 0.6 } := by
  refine ⟨rfl, ?_⟩
  simp only [ne_eq, FaceMatch.mk.injEq, not_and]
  intro _
  norm_num

/-- C3 amended: the matcher default distance threshold used by getMatches
when constructing the face matcher is 0.63 (the constructor value), not
0.6: getMatches on a fresh recognizer calls findBestMatch with threshold
0.63 for every detection. -/
theorem c3_amended_threshold {α : Type}
    (findBestMatch : List (LabeledFaceDescriptors α) → ℚ → List α → FaceMatch)
    (detectionResults : List (DetectionResult α))
    (labeledFaceDescriptors : List (LabeledFaceDescriptors α)) :
    FaceRecognizer.new.getMatches findBestMatch detectionResults labeledFaceDescriptors =
      detectionResults.map
        (fun fd => findBestMatch labeledFaceDescriptors 0.63 fd.descriptor) :=
  rfl

/-- C7: getMatches returns exactly one FaceMatch per input detection
result, in input order: the i-th output is findBestMatch applied to the
i-th detection descriptor. -/
theorem c7_one_match_per_detection {α : Type} (self : FaceRecognizer)
    (findBestMatch : List (LabeledFaceDescriptors α) → ℚ → List α → FaceMatch)
    (detectionResults : List (DetectionResult α))
    (labeledFaceDescriptors : List (LabeledFaceDescriptors α)) :
    (self.getMatches findBestMatch detectionResults labeledFaceDescriptors).length =
        detectionResults.length ∧
      ∀ i (hd : i < detectionResults.length)
        (hm : i < (self.getMatches findBestMatch detectionResults
          labeledFaceDescriptors).length),
        (self.getMatches findBestMatch detectionResults labeledFaceDescriptors).get
            ⟨i, hm⟩ =
          findBestMatch labeledFaceDescriptors self.distanceThreshold
            (detectionResults.get ⟨i, hd⟩).descriptor := by
  refine ⟨by simp [FaceRecognizer.getMatches], ?_⟩
  intro i hd hm
  simp [FaceRecognizer.getMatches]

theorem c7_one_match_per_detection_witness :
    (0 : Nat) <
        ([{ detection := { box := { x := 0, y := 0, width := 0, height := 0 } },
            descriptor := [3] }] : List (DetectionResult Nat)).length ∧
      (FaceRecognizer.new.getMatches (fun _ _ _ => { label := "x", distance := 0 })
          [{ detection := { box := { x := 0, y := 0, width := 0, height := 0 } },
             descriptor := [3] }] []).get ⟨0, by simp [FaceRecognizer.getMatches]⟩ =
        { label := "x", distance := 0 } :=
  ⟨by decide,
    (c7_one_match_per_detection FaceRecognizer.new
        (fun _ _ _ => { label := "x", distance := 0 })
        [{ detection := { box := { x := 0, y := 0, width := 0, height := 0 } },
           descriptor := [3] }] []).2
      0 (by decide) (by simp [FaceRecognizer.getMatches])⟩

/-- C5: calling drawFaceDetections throws a TypeError instead of
returning a tensor: its final step dispatches the undefined method
loadImageData (the prototype defines loadImage, not loadImageData), so
even the empty-input call yields the error, never a drawn tensor. -/
theorem c5_code_bug_draw_throws :
    drawFaceDetections (fun m => m.label) ([] : List FaceMatch)
        ([] : List (DetectionResult Nat)) { shape := [2, 2, 3], data := [0] } =
      Except.error "TypeError: this.loadImageData is not a function" :=
  rfl

/-- C9 counterexample: with the base directory configured to `custom`,
the spec-claimed save path is `custom/face.jpg`, but saveTensorJPG writes
`images/face.jpg` regardless: the base directory is not configurable. -/
theorem c9_counterexample :
    saveTensorJPGPath "face.jpg" = "images/face.jpg" ∧
      configurableSavePath "custom" "face.jpg" = "custom/face.jpg" ∧
      saveTensorJPGPath "face.jpg" ≠ configurableSavePath "custom" "face.jpg" :=
  ⟨rfl, rfl, by decide⟩

/-- C9 amended: image saving writes the encoded bytes into the fixed
`images` base directory: both savers produce exactly the path the spec
claimed form gives for the hard-coded base (`images` for saveTensorJPG,
`./images` for saveImageFile), for every file name. -/
theorem c9_amended_fixed_directory (fileName : String) :
    saveTensorJPGPath fileName = configurableSavePath "images" fileName ∧
      saveImageFilePath fileName = configurableSavePath "./images" fileName :=
  ⟨rfl, rfl⟩


/-- C8: getMatchedLabels returns exactly the non-unknown labels of the
matches in their relative order (the filter of the label projections),
re-filtering its output the same way changes nothing, and every returned
label differs from "unknown". -/
theorem c8_known_labels (faceMatches : List FaceMatch) :
    getMatchedLabels faceMatches =
        (faceMatches.map FaceMatch.label).filter (fun l => l != "unknown") ∧
      (getMatchedLabels faceMatches).filter (fun l => l != "unknown") =
        getMatchedLabels faceMatches ∧
      ∀ l ∈ getMatchedLabels faceMatches, l ≠ "unknown" := by
  have h1 : getMatchedLabels faceMatches =
      (faceMatches.map FaceMatch.label).filter (fun l => l != "unknown") := by
    simpa [getMatchedLabels] using getMatchedLabels_foldl faceMatches []
  refine ⟨h1, ?_, ?_⟩
  · rw [h1, List.filter_filter]
    simp
  · intro l hl
    rw [h1] at hl
    simpa using List.of_mem_filter hl

theorem c8_known_labels_witness :
    ("person1" : String) ∈
        getMatchedLabels
          [{ label := "person1", distance := 0 }, { label := "unknown", distance := 1 }] ∧
      ("person1" : String) ≠ "unknown" :=
  ⟨by decide,
    (c8_known_labels
        [{ label := "person1", distance := 0 },
         { label := "unknown", distance := 1 }]).2.2
      "person1" (by decide)⟩

/-- Round trip of descriptor persistence under the single-embedding
invariant of the data model. -/
theorem loadDescriptors_saveDescriptorsJSON {α : Type}
    (ds : List (LabeledFaceDescriptors α))
    (hsingle : ∀ d ∈ ds, ∃ v, d.descriptors = [v]) :
    loadDescriptors (saveDescriptorsJSON ds) = ds := by
  induction ds with
  | nil => rfl
  | cons d tl ih =>
      obtain ⟨v, hv⟩ := hsingle d (List.mem_cons_self d tl)
      have htl : ∀ x ∈ tl, ∃ w, x.descriptors = [w] :=
        fun x hx => hsingle x (List.mem_cons_of_mem d hx)
      have hd : ({ label := d.label, descriptors := [d.descriptors.headD []] } :
          LabeledFaceDescriptors α) = d := by
        rw [hv]
        show ({ label := d.label, descriptors := [v] } : LabeledFaceDescriptors α) = d
        rw [← hv]
      show ({ label := d.label, descriptors := [d.descriptors.headD []] } :
            LabeledFaceDescriptors α) :: loadDescriptors (saveDescriptorsJSON tl) =
          d :: tl
      rw [hd, ih htl]

/-- C4: for any non-empty list of labeled descriptors each carrying a
single embedding vector, loadDescriptors applied to the parsed content
written by saveDescriptors reproduces the original labels and embedding
values, in the same order. -/
theorem c4_descriptor_roundtrip {α : Type} (ds : List (LabeledFaceDescriptors α))
    (hne : ds ≠ [])
    (hsingle : ∀ d ∈ ds, ∃ v, d.descriptors = [v]) :
    loadDescriptors (saveDescriptorsJSON ds) = ds :=
  loadDescriptors_saveDescriptorsJSON ds hsingle

theorem c4_descriptor_roundtrip_witness :
    ([{ label := "person1", descriptors := [[1, 2, 3]] }] :
        List (LabeledFaceDescriptors Nat)) ≠ [] ∧
      (∀ d ∈ ([{ label := "person1", descriptors := [[1, 2, 3]] }] :
          List (LabeledFaceDescriptors Nat)), ∃ v, d.descriptors = [v]) ∧
      loadDescriptors (saveDescriptorsJSON
          ([{ label := "person1", descriptors := [[1, 2, 3]] }] :
            List (LabeledFaceDescriptors Nat))) =
        [{ label := "person1", descriptors := [[1, 2, 3]] }] :=
  ⟨by decide,
    by
      intro d hdmem
      rw [List.mem_singleton] at hdmem
      subst hdmem
      exact ⟨[1, 2, 3], rfl⟩,
    c4_descriptor_roundtrip _ (by decide)
      (by
        intro d hdmem
        rw [List.mem_singleton] at hdmem
        subst hdmem
        exact ⟨[1, 2, 3], rfl⟩)⟩

/-- C1 counterexample: one (label, image) pair whose detection finds no
face. The resolved array is [undefined] — the failed pair is kept as a
placeholder at its index — and that differs from the empty array the
claimed omission would produce, so the output is not shorter than the
input. -/
theorem c1_counterexample :
    (labelDescriptors (fun r : Nat => r)
        (fun _ : Nat => (none : Option (DetectionResult Nat))) ["a"] [0]).1 =
      some [none] ∧
    some [(none : Option (LabeledFaceDescriptors Nat))] ≠
      some ([] : List (Option (LabeledFaceDescriptors Nat))) :=
  ⟨rfl, by simp⟩

/-- C1 amended: when the lengths align, a pair with no detected face
logs "No faces detected." (recorded, and not fatal: every entry of the
result depends only on its own pair) but is not omitted: it contributes
the undefined placeholder at its original index, so the resolved array
always has the same length as the input. -/
theorem c1_amended_placeholder_recorded {ι img α : Type}
    (loadImage : ι → img) (detectSingleFace : img → Option (DetectionResult α))
    (labels : List String) (refImages : List ι)
    (h : labels.length = refImages.length) :
    ∃ out, (labelDescriptors loadImage detectSingleFace labels refImages).1 = some out ∧
      out.length = labels.length ∧
      (labelDescriptors loadImage detectSingleFace labels refImages).2 =
        ((labels.zip refImages).filter
          (fun p => (detectSingleFace (loadImage p.2)).isNone)).map
          (fun _ => "No faces detected.") ∧
      ∀ i (hl : i < labels.length) (hr : i < refImages.length) (ho : i < out.length),
        out.get ⟨i, ho⟩ =
          (detectSingleFace (loadImage (refImages.get ⟨i, hr⟩))).map
            (fun result =>
              { label := labels.get ⟨i, hl⟩, descriptors := [result.descriptor] }) := by
  refine ⟨_, labelDescriptors_fst_of_length loadImage detectSingleFace labels refImages h,
    by simp [h], labelDescriptors_snd_of_length loadImage detectSingleFace labels refImages h,
    ?_⟩
  intro i hl hr ho
  simp [List.get_map, List.get_zip]

theorem c1_amended_placeholder_recorded_witness :
    (["a"] : List String).length = ([0] : List Nat).length ∧
      ∃ out,
        (labelDescriptors (fun r : Nat => r)
            (fun _ : Nat => (none : Option (DetectionResult Nat))) ["a"] [0]).1 =
          some out ∧
        out.length = (["a"] : List String).length ∧
        (labelDescriptors (fun r : Nat => r)
            (fun _ : Nat => (none : Option (DetectionResult Nat))) ["a"] [0]).2 =
          (((["a"] : List String).zip ([0] : List Nat)).filter
            (fun p => ((fun _ : Nat => (none : Option (DetectionResult Nat)))
              ((fun r : Nat => r) p.2)).isNone)).map
            (fun _ => "No faces detected.") ∧
        ∀ i (hl : i < (["a"] : List String).length) (hr : i < ([0] : List Nat).length)
          (ho : i < out.length),
          out.get ⟨i, ho⟩ =
            ((fun _ : Nat => (none : Option (DetectionResult Nat)))
                ((fun r : Nat => r) (([0] : List Nat).get ⟨i, hr⟩))).map
              (fun result =>
                { label := (["a"] : List String).get ⟨i, hl⟩,
                  descriptors := [result.descriptor] }) :=
  ⟨rfl,
    c1_amended_placeholder_recorded (fun r : Nat => r)
      (fun _ : Nat => (none : Option (DetectionResult Nat))) ["a"] [0] rfl⟩

/-- C6: when the lengths align and every reference image yields a
detection, labelDescriptors resolves to an array of the same length, in
the same order, whose i-th entry is a defined descriptor carrying the
i-th input label. -/
theorem c6_all_faces_found {ι img α : Type}
    (loadImage : ι → img) (detectSingleFace : img → Option (DetectionResult α))
    (labels : List String) (refImages : List ι)
    (h : labels.length = refImages.length)
    (hdet : ∀ r ∈ refImages, (detectSingleFace (loadImage r)).isSome) :
    ∃ out, (labelDescriptors loadImage detectSingleFace labels refImages).1 = some out ∧
      out.length = labels.length ∧
      out.map (Option.map LabeledFaceDescriptors.label) = labels.map some := by
  refine ⟨_, labelDescriptors_fst_of_length loadImage detectSingleFace labels refImages h,
    by simp [h], ?_⟩
  rw [List.map_map]
  have hpt : ∀ p ∈ labels.zip refImages,
      (Option.map LabeledFaceDescriptors.label ∘ fun p =>
        (detectSingleFace (loadImage p.2)).map
          (fun result =>
            ({ label := p.1, descriptors := [result.descriptor] } :
              LabeledFaceDescriptors α))) p = some p.1 := by
    intro p hp
    have hmem : p.2 ∈ refImages := (List.of_mem_zip hp).2
    have hs := hdet p.2 hmem
    simp only [Function.comp_apply]
    cases hd : detectSingleFace (loadImage p.2) with
    | none => rw [hd] at hs; simp at hs
    | some r => simp
  rw [List.map_congr_left hpt]
  calc (labels.zip refImages).map (fun p => some p.1)
      = ((labels.zip refImages).map Prod.fst).map some := by rw [List.map_map]; rfl
    _ = labels.map some := by rw [List.map_fst_zip labels refImages h.le]

theorem c6_all_faces_found_witness :
    (["a", "b"] : List String).length = ([0, 1] : List Nat).length ∧
      (∀ r ∈ ([0, 1] : List Nat),
        ((fun n : Nat =>
            some ({ detection := { box := { x := 0, y := 0, width := 0, height := 0 } },
                    descriptor := [n] } : DetectionResult Nat))
          ((fun r : Nat => r) r)).isSome) ∧
      ∃ out,
        (labelDescriptors (fun r : Nat => r)
            (fun n : Nat =>
              some ({ detection := { box := { x := 0, y := 0, width := 0, height := 0 } },
                      descriptor := [n] } : DetectionResult Nat))
            ["a", "b"] [0, 1]).1 = some out ∧
        out.length = (["a", "b"] : List String).length ∧
        out.map (Option.map LabeledFaceDescriptors.label) =
          (["a", "b"] : List String).map some :=
  ⟨rfl, by decide,
    c6_all_faces_found (fun r : Nat => r)
      (fun n : Nat =>
        some ({ detection := { box := { x := 0, y := 0, width := 0, height := 0 } },
                descriptor := [n] } : DetectionResult Nat))
      ["a", "b"] [0, 1] rfl (by decide)⟩

/-- C10: whenever the lengths align, labelDescriptors resolves to an
array whose length equals labels.length regardless of per-item
detection failures, and a pair with no detected face contributes the
undefined placeholder at its original index. -/
theorem c10_length_always_preserved {ι img α : Type}
    (loadImage : ι → img) (detectSingleFace : img → Option (DetectionResult α))
    (labels : List String) (refImages : List ι)
    (h : labels.length = refImages.length) :
    ∃ out, (labelDescriptors loadImage detectSingleFace labels refImages).1 = some out ∧
      out.length = labels.length ∧
      ∀ i (hr : i < refImages.length) (ho : i < out.length),
        detectSingleFace (loadImage (refImages.get ⟨i, hr⟩)) = none →
          out.get ⟨i, ho⟩ = none := by
  refine ⟨_, labelDescriptors_fst_of_length loadImage detectSingleFace labels refImages h,
    by simp [h], ?_⟩
  intro i hr ho hnone
  simp only [List.get_eq_getElem] at hnone
  simp [List.get_map, List.get_zip, hnone]

theorem c10_length_always_preserved_witness :
    (["a", "b"] : List String).length = ([0, 1] : List Nat).length ∧
      ∃ out,
        (labelDescriptors (fun r : Nat => r)
            (fun n : Nat =>
              if n = 0 then
                some ({ detection := { box := { x := 0, y := 0, width := 0, height := 0 } },
                        descriptor := [0] } : DetectionResult Nat)
              else none)
            ["a", "b"] [0, 1]).1 = some out ∧
        out.length = (["a", "b"] : List String).length ∧
        ∀ i (hr : i < ([0, 1] : List Nat).length) (ho : i < out.length),
          (fun n : Nat =>
              if n = 0 then
                some ({ detection := { box := { x := 0, y := 0, width := 0, height := 0 } },
                        descriptor := [0] } : DetectionResult Nat)
              else none)
            ((fun r : Nat => r) (([0, 1] : List Nat).get ⟨i, hr⟩)) = none →
            out.get ⟨i, ho⟩ = none :=
  ⟨rfl,
    c10_length_always_preserved (fun r : Nat => r)
      (fun n : Nat =>
        if n = 0 then
          some ({ detection := { box := { x := 0, y := 0, width := 0, height := 0 } },
                  descriptor := [0] } : DetectionResult Nat)
        else none)
      ["a", "b"] [0, 1] rfl⟩

end YouAuth
